import Mathlib

/-!
Verification development for the WebAuthn client of `insect_app_front`
(`src/utils/webauthn-api.ts` and the ceremony-composition utilities).

The TypeScript source is shallowly embedded:
byte buffers (`ArrayBuffer` / `Uint8Array`) become `List Nat` (each entry < 256),
JavaScript strings become `String`, `undefined` / missing fields become `Option`,
thrown exceptions become `Except Thrown`, and the network / platform / storage
collaborators become explicit outcome values supplied through an environment.
-/

namespace WebAuthnFront

/-! ### Codec: `bufferToBase64URL` / `base64URLToBuffer`

`bufferToBase64URL` is `btoa` (standard base64 of a binary string) followed by
the three regex replacements `+`→`-`, `/`→`_`, and deletion of `=`.
`base64URLToBuffer` is the reverse replacements, `padEnd` with `=` to a
multiple of four, then `atob`.  `atob` is modelled as an `Option`-valued
decoder (`none` embeds the thrown `InvalidCharacterError`). -/

def b64Alphabet : List Char :=
  ['A', 'B', 'C', 'D', 'E', 'F', 'G', 'H', 'I', 'J', 'K', 'L', 'M',
   'N', 'O', 'P', 'Q', 'R', 'S', 'T', 'U', 'V', 'W', 'X', 'Y', 'Z',
   'a', 'b', 'c', 'd', 'e', 'f', 'g', 'h', 'i', 'j', 'k', 'l', 'm',
   'n', 'o', 'p', 'q', 'r', 's', 't', 'u', 'v', 'w', 'x', 'y', 'z',
   '0', '1', '2', '3', '4', '5', '6', '7', '8', '9', '+', '/']

/-- Character of the standard base64 alphabet at a six-bit index. -/
def b64Char (n : Nat) : Char := b64Alphabet.getD n 'A'

/-- First index of a character in a list of characters. -/
def indexInAlphabet : List Char → Char → Option Nat
  | [], _ => none
  | d :: rest, c => if d = c then some 0 else (indexInAlphabet rest c).map (· + 1)

/-- Six-bit value of a base64 character; `none` for characters outside the
standard alphabet (`atob` raises on those). -/
def charToSix (c : Char) : Option Nat := indexInAlphabet b64Alphabet c

/-- The two regex replacements `+`→`-` and `/`→`_` of `bufferToBase64URL`. -/
def toUrlSafe (c : Char) : Char :=
  if c = '+' then '-' else if c = '/' then '_' else c

/-- The two reverse replacements `-`→`+` and `_`→`/` of `base64URLToBuffer`. -/
def fromUrlSafe (c : Char) : Char :=
  if c = '-' then '+' else if c = '_' then '/' else c

/-- `btoa` on a byte sequence: three bytes become four alphabet characters,
a trailing group of one or two bytes is padded with `=`. -/
def encodeB64 : List Nat → List Char
  | [] => []
  | [x] => [b64Char (x / 4), b64Char (x % 4 * 16), '=', '=']
  | [x, y] => [b64Char (x / 4), b64Char (x % 4 * 16 + y / 16), b64Char (y % 16 * 4), '=']
  | x :: y :: z :: rest =>
      b64Char (x / 4) :: b64Char (x % 4 * 16 + y / 16) ::
        b64Char (y % 16 * 4 + z / 64) :: b64Char (z % 64) :: encodeB64 rest

/-- `bufferToBase64URL` of `webauthn-api.ts`: `btoa`, make URL-safe, strip `=`. -/
def bufferToBase64URL (b : List Nat) : String :=
  String.mk (((encodeB64 b).map toUrlSafe).filter (fun c => c != '='))

/-- The `padEnd` step of `base64URLToBuffer`: append `=` up to a multiple of 4. -/
def padB64 (l : List Char) : List Char :=
  l ++ List.replicate ((4 - l.length % 4) % 4) '='

/-- `atob` on a padded base64 text, processed in four-character groups;
`=` is accepted only as the final one or two characters. -/
def atobGroups : List Char → Option (List Nat)
  | [] => some []
  | a :: b :: c :: d :: rest =>
      (charToSix a).bind fun x =>
      (charToSix b).bind fun y =>
      if c = '=' then
        if d = '=' ∧ rest = [] then some [x * 4 + y / 16] else none
      else
        (charToSix c).bind fun z =>
        if d = '=' then
          if rest = [] then some [x * 4 + y / 16, y % 16 * 16 + z / 4] else none
        else
          (charToSix d).bind fun w =>
          (atobGroups rest).map fun tail =>
            (x * 4 + y / 16) :: (y % 16 * 16 + z / 4) :: (z % 4 * 64 + w) :: tail
  | _ => none

/-- `base64URLToBuffer` of `webauthn-api.ts`: reverse the URL-safe
replacements, restore padding, `atob`. -/
def base64URLToBuffer (s : String) : Option (List Nat) :=
  atobGroups (padB64 (s.data.map fromUrlSafe))

/-! ### Well-formed padding-free URL-safe encodings

A text is a well-formed padding-free URL-safe base64 encoding when its length
is not ≡ 1 (mod 4), every character belongs to the URL-safe alphabet, and the
trailing bits of the last character of a partial final group are zero (the
canonical-encoding condition every encoder output satisfies). -/

/-- Six-bit value of a URL-safe character (0 when outside the alphabet). -/
def sixOf (c : Char) : Nat := (charToSix (fromUrlSafe c)).getD 0

/-- Membership in the URL-safe alphabet `A`–`Z`, `a`–`z`, `0`–`9`, `-`, `_`. -/
def isB64UrlChar (c : Char) : Bool :=
  (charToSix (fromUrlSafe c)).isSome && c != '+' && c != '/'

/-- Well-formedness of a padding-free URL-safe encoding, by four-character
groups. -/
def wellFormedB64URLChars : List Char → Bool
  | [] => true
  | [a, b] => isB64UrlChar a && isB64UrlChar b && sixOf b % 16 == 0
  | [a, b, c] => isB64UrlChar a && isB64UrlChar b && isB64UrlChar c && sixOf c % 4 == 0
  | a :: b :: c :: d :: rest =>
      isB64UrlChar a && isB64UrlChar b && isB64UrlChar c && isB64UrlChar d &&
        wellFormedB64URLChars rest
  | _ => false

/-- Well-formedness of a padding-free URL-safe encoding. -/
def wellFormedBase64URL (s : String) : Bool := wellFormedB64URLChars s.data

/-! ### Alphabet lemmas -/

theorem charToSix_b64Char : ∀ n < 64, charToSix (b64Char n) = some n := by decide

theorem toUrlSafe_b64Char_ne_pad : ∀ n < 64, (toUrlSafe (b64Char n) != '=') = true := by
  decide

theorem fromUrlSafe_toUrlSafe_b64Char :
    ∀ n < 64, fromUrlSafe (toUrlSafe (b64Char n)) = b64Char n := by decide

theorem b64Char_ne_pad : ∀ n < 64, ¬ b64Char n = '=' := by decide

theorem charToSix_pad : charToSix '=' = none := by decide

theorem indexInAlphabet_lt_length :
    ∀ (l : List Char) (c : Char) (n : Nat), indexInAlphabet l c = some n → n < l.length := by
  intro l
  induction l with
  | nil => intro c n h; simp [indexInAlphabet] at h
  | cons d rest ih =>
    intro c n h
    simp only [indexInAlphabet] at h
    by_cases hd : d = c
    · rw [if_pos hd] at h
      injection h with h
      subst h
      simp
    · rw [if_neg hd, Option.map_eq_some'] at h
      obtain ⟨m, hm, hmn⟩ := h
      have := ih c m hm
      simp only [List.length_cons]
      omega

theorem indexInAlphabet_getD :
    ∀ (l : List Char) (c : Char) (n : Nat),
      indexInAlphabet l c = some n → l.getD n 'A' = c := by
  intro l
  induction l with
  | nil => intro c n h; simp [indexInAlphabet] at h
  | cons d rest ih =>
    intro c n h
    simp only [indexInAlphabet] at h
    by_cases hd : d = c
    · rw [if_pos hd] at h
      injection h with h
      subst h
      simpa using hd
    · rw [if_neg hd, Option.map_eq_some'] at h
      obtain ⟨m, hm, hmn⟩ := h
      subst hmn
      simpa using ih c m hm

theorem charToSix_lt (c : Char) (n : Nat) (h : charToSix c = some n) : n < 64 := by
  have := indexInAlphabet_lt_length b64Alphabet c n h
  simpa [b64Alphabet] using this

theorem charToSix_inv (c : Char) (n : Nat) (h : charToSix c = some n) :
    b64Char n = c :=
  indexInAlphabet_getD b64Alphabet c n h

theorem charToSix_ne_pad (c : Char) (n : Nat) (h : charToSix c = some n) : ¬ c = '=' := by
  intro hc
  rw [hc, charToSix_pad] at h
  exact Option.noConfusion h

theorem toUrlSafe_pad : toUrlSafe '=' = '=' := by decide

theorem pad_not_kept : ('=' != '=') = false := by decide

/-! ### Round trip lemmas -/

theorem padB64_two (a b : Char) : padB64 [a, b] = [a, b, '=', '='] := rfl

theorem padB64_three (a b c : Char) : padB64 [a, b, c] = [a, b, c, '='] := rfl

theorem padB64_nil : padB64 [] = [] := rfl

theorem padB64_cons4 (a b c d : Char) (l : List Char) :
    padB64 (a :: b :: c :: d :: l) = a :: b :: c :: d :: padB64 l := by
  have hlen : (4 - (l.length + 1 + 1 + 1 + 1) % 4) % 4 = (4 - l.length % 4) % 4 := by
    omega
  simp [padB64, hlen]

/-- Decoding the re-padded, de-URL-safed form of an encoding recovers the bytes. -/
theorem atob_encode (b : List Nat) (hb : ∀ x ∈ b, x < 256) :
    atobGroups (padB64
      ((((encodeB64 b).map toUrlSafe).filter (fun c => c != '=')).map fromUrlSafe)) =
      some b := by
  induction b using encodeB64.induct with
  | case1 =>
    simp [encodeB64, padB64, atobGroups]
  | case2 x =>
    have hx : x < 256 := hb x (by simp)
    have h1 : x / 4 < 64 := by omega
    have h2 : x % 4 * 16 < 64 := by omega
    simp only [encodeB64, List.map_cons, List.map_nil, List.filter_cons, List.filter_nil,
      toUrlSafe_b64Char_ne_pad _ h1, toUrlSafe_b64Char_ne_pad _ h2, toUrlSafe_pad,
      pad_not_kept, Bool.false_eq_true, eq_self_iff_true, if_true, if_false,
      fromUrlSafe_toUrlSafe_b64Char _ h1, fromUrlSafe_toUrlSafe_b64Char _ h2]
    rw [padB64_two]
    simp only [atobGroups, charToSix_b64Char _ h1, charToSix_b64Char _ h2,
      Option.some_bind]
    rw [if_pos trivial, if_pos ⟨trivial, trivial⟩]
    congr 1
    simp only [List.cons.injEq, and_true]
    omega
  | case3 x y =>
    have hx : x < 256 := hb x (by simp)
    have hy : y < 256 := hb y (by simp)
    have h1 : x / 4 < 64 := by omega
    have h2 : x % 4 * 16 + y / 16 < 64 := by omega
    have h3 : y % 16 * 4 < 64 := by omega
    simp only [encodeB64, List.map_cons, List.map_nil, List.filter_cons, List.filter_nil,
      toUrlSafe_b64Char_ne_pad _ h1, toUrlSafe_b64Char_ne_pad _ h2,
      toUrlSafe_b64Char_ne_pad _ h3, toUrlSafe_pad, pad_not_kept, Bool.false_eq_true,
      eq_self_iff_true, if_true, if_false,
      fromUrlSafe_toUrlSafe_b64Char _ h1, fromUrlSafe_toUrlSafe_b64Char _ h2,
      fromUrlSafe_toUrlSafe_b64Char _ h3]
    rw [padB64_three]
    simp only [atobGroups, charToSix_b64Char _ h1, charToSix_b64Char _ h2,
      charToSix_b64Char _ h3, Option.some_bind]
    rw [if_neg (b64Char_ne_pad _ h3), if_pos trivial, if_pos trivial]
    congr 1
    simp only [List.cons.injEq, and_true]
    constructor
    · omega
    · omega
  | case4 x y z rest ih =>
    have hx : x < 256 := hb x (by simp)
    have hy : y < 256 := hb y (by simp)
    have hz : z < 256 := hb z (by simp)
    have hrest : ∀ w ∈ rest, w < 256 := fun w hw => hb w (by simp [hw])
    have h1 : x / 4 < 64 := by omega
    have h2 : x % 4 * 16 + y / 16 < 64 := by omega
    have h3 : y % 16 * 4 + z / 64 < 64 := by omega
    have h4 : z % 64 < 64 := by omega
    simp only [encodeB64, List.map_cons, List.filter_cons,
      toUrlSafe_b64Char_ne_pad _ h1, toUrlSafe_b64Char_ne_pad _ h2,
      toUrlSafe_b64Char_ne_pad _ h3, toUrlSafe_b64Char_ne_pad _ h4,
      eq_self_iff_true, if_true,
      fromUrlSafe_toUrlSafe_b64Char _ h1, fromUrlSafe_toUrlSafe_b64Char _ h2,
      fromUrlSafe_toUrlSafe_b64Char _ h3, fromUrlSafe_toUrlSafe_b64Char _ h4]
    rw [padB64_cons4]
    simp only [atobGroups, charToSix_b64Char _ h1, charToSix_b64Char _ h2,
      charToSix_b64Char _ h3, charToSix_b64Char _ h4, Option.some_bind]
    rw [if_neg (b64Char_ne_pad _ h3), if_neg (b64Char_ne_pad _ h4)]
    rw [ih hrest]
    simp only [Option.map_some', Option.some.injEq, List.cons.injEq]
    refine ⟨by omega, by omega, by omega, trivial⟩

theorem toUrlSafe_fromUrlSafe (c : Char) (h1 : ¬ c = '+') (h2 : ¬ c = '/') :
    toUrlSafe (fromUrlSafe c) = c := by
  by_cases h3 : c = '-'
  · subst h3; decide
  · by_cases h4 : c = '_'
    · subst h4; decide
    · unfold fromUrlSafe toUrlSafe
      rw [if_neg h3, if_neg h4, if_neg h1, if_neg h2]

theorem isB64UrlChar_elim (c : Char) (h : isB64UrlChar c = true) :
    ∃ n, charToSix (fromUrlSafe c) = some n ∧ n < 64 ∧ toUrlSafe (b64Char n) = c := by
  unfold isB64UrlChar at h
  simp only [Bool.and_eq_true, bne_iff_ne, ne_eq, Option.isSome_iff_exists] at h
  obtain ⟨⟨⟨n, hn⟩, hplus⟩, hslash⟩ := h
  refine ⟨n, hn, charToSix_lt _ _ hn, ?_⟩
  rw [charToSix_inv _ _ hn]
  exact toUrlSafe_fromUrlSafe c hplus hslash

theorem sixOf_eq (c : Char) (n : Nat) (h : charToSix (fromUrlSafe c) = some n) :
    sixOf c = n := by
  unfold sixOf
  rw [h]
  rfl

/-- Decoding a well-formed padding-free URL-safe text yields bytes whose
re-encoding is the original text. -/
theorem encode_atob_wellFormed :
    ∀ l : List Char, wellFormedB64URLChars l = true →
      ∃ bytes, atobGroups (padB64 (l.map fromUrlSafe)) = some bytes ∧
        ((encodeB64 bytes).map toUrlSafe).filter (fun c => c != '=') = l := by
  intro l hl
  induction l using wellFormedB64URLChars.induct with
  | case1 =>
    exact ⟨[], by simp [padB64, atobGroups], by simp [encodeB64]⟩
  | case2 a b =>
    simp only [wellFormedB64URLChars, Bool.and_eq_true, beq_iff_eq] at hl
    obtain ⟨⟨ha, hb⟩, hcan⟩ := hl
    obtain ⟨x, hxa, hxlt, hxu⟩ := isB64UrlChar_elim a ha
    obtain ⟨y, hyb, hylt, hyu⟩ := isB64UrlChar_elim b hb
    rw [sixOf_eq b y hyb] at hcan
    refine ⟨[x * 4 + y / 16], ?_, ?_⟩
    · simp only [List.map_cons, List.map_nil]
      rw [padB64_two]
      simp only [atobGroups, hxa, hyb, Option.some_bind]
      rw [if_pos trivial, if_pos ⟨trivial, trivial⟩]
    · have e1 : (x * 4 + y / 16) / 4 = x := by omega
      have e2 : (x * 4 + y / 16) % 4 * 16 = y := by omega
      simp only [encodeB64, e1, e2, List.map_cons, List.map_nil, List.filter_cons,
        List.filter_nil, toUrlSafe_pad, pad_not_kept, Bool.false_eq_true,
        toUrlSafe_b64Char_ne_pad _ hxlt, toUrlSafe_b64Char_ne_pad _ hylt,
        eq_self_iff_true, if_true, if_false]
      rw [hxu, hyu]
  | case3 a b c =>
    simp only [wellFormedB64URLChars, Bool.and_eq_true, beq_iff_eq] at hl
    obtain ⟨⟨⟨ha, hb⟩, hc⟩, hcan⟩ := hl
    obtain ⟨x, hxa, hxlt, hxu⟩ := isB64UrlChar_elim a ha
    obtain ⟨y, hyb, hylt, hyu⟩ := isB64UrlChar_elim b hb
    obtain ⟨z, hzc, hzlt, hzu⟩ := isB64UrlChar_elim c hc
    rw [sixOf_eq c z hzc] at hcan
    have hcne : ¬ fromUrlSafe c = '=' := charToSix_ne_pad _ _ hzc
    refine ⟨[x * 4 + y / 16, y % 16 * 16 + z / 4], ?_, ?_⟩
    · simp only [List.map_cons, List.map_nil]
      rw [padB64_three]
      simp only [atobGroups, hxa, hyb, hzc, Option.some_bind]
      rw [if_neg hcne, if_pos trivial, if_pos trivial]
    · have e1 : (x * 4 + y / 16) / 4 = x := by omega
      have e2 : (x * 4 + y / 16) % 4 * 16 + (y % 16 * 16 + z / 4) / 16 = y := by omega
      have e3 : (y % 16 * 16 + z / 4) % 16 * 4 = z := by omega
      simp only [encodeB64, e1, e2, e3, List.map_cons, List.map_nil, List.filter_cons,
        List.filter_nil, toUrlSafe_pad, pad_not_kept, Bool.false_eq_true,
        toUrlSafe_b64Char_ne_pad _ hxlt, toUrlSafe_b64Char_ne_pad _ hylt,
        toUrlSafe_b64Char_ne_pad _ hzlt, eq_self_iff_true, if_true, if_false]
      rw [hxu, hyu, hzu]
  | case4 a b c d rest ih =>
    simp only [wellFormedB64URLChars, Bool.and_eq_true] at hl
    obtain ⟨⟨⟨⟨ha, hb⟩, hc⟩, hd⟩, hrest⟩ := hl
    obtain ⟨x, hxa, hxlt, hxu⟩ := isB64UrlChar_elim a ha
    obtain ⟨y, hyb, hylt, hyu⟩ := isB64UrlChar_elim b hb
    obtain ⟨z, hzc, hzlt, hzu⟩ := isB64UrlChar_elim c hc
    obtain ⟨w, hwd, hwlt, hwu⟩ := isB64UrlChar_elim d hd
    have hcne : ¬ fromUrlSafe c = '=' := charToSix_ne_pad _ _ hzc
    have hdne : ¬ fromUrlSafe d = '=' := charToSix_ne_pad _ _ hwd
    obtain ⟨tb, htb1, htb2⟩ := ih hrest
    refine ⟨(x * 4 + y / 16) :: (y % 16 * 16 + z / 4) :: (z % 4 * 64 + w) :: tb, ?_, ?_⟩
    · simp only [List.map_cons]
      rw [padB64_cons4]
      simp only [atobGroups, hxa, hyb, hzc, hwd, Option.some_bind]
      rw [if_neg hcne, if_neg hdne, htb1]
      rfl
    · have e1 : (x * 4 + y / 16) / 4 = x := by omega
      have e2 : (x * 4 + y / 16) % 4 * 16 + (y % 16 * 16 + z / 4) / 16 = y := by omega
      have e3 : (y % 16 * 16 + z / 4) % 16 * 4 + (z % 4 * 64 + w) / 64 = z := by omega
      have e4 : (z % 4 * 64 + w) % 64 = w := by omega
      simp only [encodeB64, e1, e2, e3, e4, List.map_cons, List.filter_cons,
        toUrlSafe_b64Char_ne_pad _ hxlt, toUrlSafe_b64Char_ne_pad _ hylt,
        toUrlSafe_b64Char_ne_pad _ hzlt, toUrlSafe_b64Char_ne_pad _ hwlt,
        eq_self_iff_true, if_true]
      rw [hxu, hyu, hzu, hwu, htb2]
  | case5 x hx1 hx2 hx3 hx4 =>
    rw [wellFormedB64URLChars] at hl
    · exact absurd hl (by simp)
    · exact hx1
    · exact hx2
    · exact hx3
    · exact hx4

/-- C1: the codec is a two-sided inverse: decoding an encoding recovers any
byte sequence (including empty and lengths ≡ 1, 2, 3 mod 4), and encoding the
decoding of any well-formed padding-free URL-safe text recovers the text. -/
theorem c1_codec_two_sided_inverse :
    (∀ b : List Nat, (∀ x ∈ b, x < 256) →
      base64URLToBuffer (bufferToBase64URL b) = some b) ∧
    (∀ t : String, wellFormedBase64URL t = true →
      (base64URLToBuffer t).map bufferToBase64URL = some t) := by
  constructor
  · intro b hb
    exact atob_encode b hb
  · intro t ht
    cases t with
    | mk l =>
      obtain ⟨bytes, hdec, henc⟩ := encode_atob_wellFormed l ht
      unfold base64URLToBuffer
      rw [hdec]
      simp only [Option.map_some']
      unfold bufferToBase64URL
      rw [henc]

/-- Witness for C1 at concrete inputs of lengths 5 (bytes) and 4 (text). -/
theorem c1_codec_two_sided_inverse_witness :
    base64URLToBuffer (bufferToBase64URL [0, 1, 255, 7, 8]) = some [0, 1, 255, 7, 8] ∧
    (base64URLToBuffer "QUJD").map bufferToBase64URL = some "QUJD" :=
  ⟨c1_codec_two_sided_inverse.1 [0, 1, 255, 7, 8] (by decide),
   c1_codec_two_sided_inverse.2 "QUJD" (by decide)⟩

/-! ### Challenge-option payloads and `decodeCreationOptions` / `decodeRequestOptions`

The server payloads are `any`-typed in the source; they are embedded as
structures whose named fields are the ones the decoders touch, with a type
parameter `rest` standing for all remaining fields (the object spreads
`...options`, `...options.user`, `...cred` carry them over unchanged). -/

/-- An entry of `excludeCredentials` / `allowCredentials` on the wire. -/
structure CredWire (γ : Type) where
  id : String
  rest : γ
deriving DecidableEq

/-- An entry of `excludeCredentials` / `allowCredentials` after decoding. -/
structure CredDec (γ : Type) where
  id : List Nat
  rest : γ
deriving DecidableEq

/-- The `user` object of creation options on the wire. -/
structure UserWire (β : Type) where
  id : String
  rest : β
deriving DecidableEq

/-- The `user` object of creation options after decoding. -/
structure UserDec (β : Type) where
  id : List Nat
  rest : β
deriving DecidableEq

/-- `PublicKeyCredentialCreationOptions` on the wire. -/
structure CreationOptionsWire (α β γ : Type) where
  challenge : String
  user : UserWire β
  excludeCredentials : Option (List (CredWire γ))
  rest : α
deriving DecidableEq

/-- `PublicKeyCredentialCreationOptions` after decoding. -/
structure CreationOptionsDec (α β γ : Type) where
  challenge : List Nat
  user : UserDec β
  excludeCredentials : Option (List (CredDec γ))
  rest : α
deriving DecidableEq

/-- `PublicKeyCredentialRequestOptions` on the wire. -/
structure RequestOptionsWire (α γ : Type) where
  challenge : String
  allowCredentials : Option (List (CredWire γ))
  rest : α
deriving DecidableEq

/-- `PublicKeyCredentialRequestOptions` after decoding. -/
structure RequestOptionsDec (α γ : Type) where
  challenge : List Nat
  allowCredentials : Option (List (CredDec γ))
  rest : α
deriving DecidableEq

/-- The `.map(cred => ({...cred, id: base64URLToBuffer(cred.id)}))` over a
credential list; a decode failure anywhere aborts (the thrown error). -/
def decodeCredList {γ : Type} : List (CredWire γ) → Option (List (CredDec γ))
  | [] => some []
  | c :: rest =>
      (base64URLToBuffer c.id).bind fun i =>
      (decodeCredList rest).map fun r => ⟨i, c.rest⟩ :: r

/-- The optional-chaining form `list?.map(...)`: an absent list stays absent. -/
def decodeOptCredList {γ : Type} : Option (List (CredWire γ)) → Option (Option (List (CredDec γ)))
  | none => some none
  | some l => (decodeCredList l).map some

/-- `decodeCreationOptions` of `webauthn-api.ts`. -/
def decodeCreationOptions {α β γ : Type} (options : CreationOptionsWire α β γ) :
    Option (CreationOptionsDec α β γ) :=
  (base64URLToBuffer options.challenge).bind fun ch =>
  (base64URLToBuffer options.user.id).bind fun uid =>
  (decodeOptCredList options.excludeCredentials).map fun ex =>
  ⟨ch, ⟨uid, options.user.rest⟩, ex, options.rest⟩

/-- `decodeRequestOptions` of `webauthn-api.ts`. -/
def decodeRequestOptions {α γ : Type} (options : RequestOptionsWire α γ) :
    Option (RequestOptionsDec α γ) :=
  (base64URLToBuffer options.challenge).bind fun ch =>
  (decodeOptCredList options.allowCredentials).map fun al =>
  ⟨ch, al, options.rest⟩

theorem decodeCredList_forall2 {γ : Type} :
    ∀ (l : List (CredWire γ)) (l' : List (CredDec γ)),
      decodeCredList l = some l' →
      List.Forall₂ (fun cp cq =>
        base64URLToBuffer cp.id = some (CredDec.id cq) ∧ CredDec.rest cq = cp.rest) l l' := by
  intro l
  induction l with
  | nil =>
    intro l' h
    simp only [decodeCredList, Option.some.injEq] at h
    subst h
    exact List.Forall₂.nil
  | cons c rest ih =>
    intro l' h
    simp only [decodeCredList] at h
    cases hid : base64URLToBuffer c.id with
    | none => rw [hid] at h; simp at h
    | some i =>
      rw [hid] at h
      simp only [Option.some_bind] at h
      cases hr : decodeCredList rest with
      | none => rw [hr] at h; simp at h
      | some r =>
        rw [hr] at h
        simp only [Option.map_some'] at h
        injection h with h
        subst h
        exact List.Forall₂.cons ⟨hid, rfl⟩ (ih r hr)

/-- C2: the decoders convert exactly the designated binary-bearing fields
(challenge, user id, each exclusion-list id; challenge, each allow-list id)
and leave every other field structurally identical to the input. -/
theorem c2_decode_options_frame :
    (∀ {α β γ : Type} (p : CreationOptionsWire α β γ) (q : CreationOptionsDec α β γ),
      decodeCreationOptions p = some q →
        base64URLToBuffer p.challenge = some q.challenge ∧
        base64URLToBuffer p.user.id = some q.user.id ∧
        q.user.rest = p.user.rest ∧
        q.rest = p.rest ∧
        Option.Rel (List.Forall₂ (fun cp cq =>
            base64URLToBuffer cp.id = some (CredDec.id cq) ∧ CredDec.rest cq = cp.rest))
          p.excludeCredentials q.excludeCredentials) ∧
    (∀ {α γ : Type} (p : RequestOptionsWire α γ) (q : RequestOptionsDec α γ),
      decodeRequestOptions p = some q →
        base64URLToBuffer p.challenge = some q.challenge ∧
        q.rest = p.rest ∧
        Option.Rel (List.Forall₂ (fun cp cq =>
            base64URLToBuffer cp.id = some (CredDec.id cq) ∧ CredDec.rest cq = cp.rest))
          p.allowCredentials q.allowCredentials) := by
  constructor
  · intro α β γ p q h
    unfold decodeCreationOptions at h
    cases hch : base64URLToBuffer p.challenge with
    | none => rw [hch] at h; simp at h
    | some ch =>
      rw [hch] at h
      simp only [Option.some_bind] at h
      cases huid : base64URLToBuffer p.user.id with
      | none => rw [huid] at h; simp at h
      | some uid =>
        rw [huid] at h
        simp only [Option.some_bind] at h
        cases hex : p.excludeCredentials with
        | none =>
          rw [hex] at h
          simp only [decodeOptCredList, Option.map_some'] at h
          injection h with h
          subst h
          exact ⟨rfl, rfl, rfl, rfl, Option.Rel.none⟩
        | some l =>
          rw [hex] at h
          simp only [decodeOptCredList] at h
          cases hl : decodeCredList l with
          | none => rw [hl] at h; simp at h
          | some l' =>
            rw [hl] at h
            simp only [Option.map_some'] at h
            injection h with h
            subst h
            exact ⟨rfl, rfl, rfl, rfl, Option.Rel.some (decodeCredList_forall2 l l' hl)⟩
  · intro α γ p q h
    unfold decodeRequestOptions at h
    cases hch : base64URLToBuffer p.challenge with
    | none => rw [hch] at h; simp at h
    | some ch =>
      rw [hch] at h
      simp only [Option.some_bind] at h
      cases hal : p.allowCredentials with
      | none =>
        rw [hal] at h
        simp only [decodeOptCredList, Option.map_some'] at h
        injection h with h
        subst h
        exact ⟨rfl, rfl, Option.Rel.none⟩
      | some l =>
        rw [hal] at h
        simp only [decodeOptCredList] at h
        cases hl : decodeCredList l with
        | none => rw [hl] at h; simp at h
        | some l' =>
          rw [hl] at h
          simp only [Option.map_some'] at h
          injection h with h
          subst h
          exact ⟨rfl, rfl, Option.Rel.some (decodeCredList_forall2 l l' hl)⟩

/-- Witness for C2 at concrete payloads (challenge and ids decode from `QQ`). -/
theorem c2_decode_options_frame_witness :
    (base64URLToBuffer ("QQ" : String) = some [65] ∧
     base64URLToBuffer ("QQ" : String) = some [65] ∧
     ("urest" : String) = "urest" ∧
     ("orest" : String) = "orest" ∧
     Option.Rel (List.Forall₂ (fun (cp : CredWire String) (cq : CredDec String) =>
         base64URLToBuffer cp.id = some (CredDec.id cq) ∧ CredDec.rest cq = cp.rest))
       (some [⟨"QQ", "crest"⟩]) (some [⟨[65], "crest"⟩])) ∧
    (base64URLToBuffer ("QQ" : String) = some [65] ∧
     ("rrest" : String) = "rrest" ∧
     Option.Rel (List.Forall₂ (fun (cp : CredWire String) (cq : CredDec String) =>
         base64URLToBuffer cp.id = some (CredDec.id cq) ∧ CredDec.rest cq = cp.rest))
       (some [⟨"QQ", "crest"⟩]) (some [⟨[65], "crest"⟩])) :=
  ⟨c2_decode_options_frame.1
      (⟨"QQ", ⟨"QQ", "urest"⟩, some [⟨"QQ", "crest"⟩], "orest"⟩ : CreationOptionsWire String String String)
      ⟨[65], ⟨[65], "urest"⟩, some [⟨[65], "crest"⟩], "orest"⟩ (by decide),
   c2_decode_options_frame.2
      (⟨"QQ", some [⟨"QQ", "crest"⟩], "rrest"⟩ : RequestOptionsWire String String)
      ⟨[65], some [⟨[65], "crest"⟩], "rrest"⟩ (by decide)⟩

/-! ### Server envelope, fetch outcomes, and thrown values

`fetch` either rejects (network failure or abort) or resolves with a response
whose `ok` flag reflects a 2xx status; `response.json()` either parses to an
envelope `{success, data?, error?, message?}` or throws (modelled by `none`).
A thrown JavaScript value is either an `Error` carrying a message or some
other value (the `error instanceof Error` test distinguishes the two). -/

/-- A thrown JavaScript value. -/
inductive Thrown where
  | error (msg : String)
  | other
deriving DecidableEq

/-- The `ApiResponse<T>` envelope of `webauthn-api.ts`. -/
structure ApiResponse (δ : Type) where
  success : Bool
  data : Option δ
  error : Option String
  message : Option String
deriving DecidableEq

/-- Outcome of one `fetch` call. -/
inductive FetchOutcome (δ : Type) where
  | reject (t : Thrown)
  | response (ok : Bool) (body : Option (ApiResponse δ))
deriving DecidableEq

/-- JavaScript `a || b` for a string-or-undefined `a`: an absent or empty
string falls through to `b`. -/
def jsOr (a : Option String) (b : String) : String :=
  match a with
  | none => b
  | some s => if s = "" then b else s

/-- Message thrown on a non-2xx status:
`error.error || error.message || fallback` where `error` is the parsed body,
or `{error: 'ネットワークエラー'}` when parsing it failed. -/
def httpErrorMsg {δ : Type} (body : Option (ApiResponse δ)) (fallback : String) : String :=
  match body with
  | none => jsOr (some "ネットワークエラー") (jsOr none fallback)
  | some e => jsOr e.error (jsOr e.message fallback)

/-- Stand-in message of the `SyntaxError` thrown when `response.json()` fails
on a 2xx response (its exact text is platform-supplied). -/
def jsonParseErrorMsg : String := "Unexpected end of JSON input"

/-- Stand-in message of the `InvalidCharacterError` thrown by `atob` on a
malformed encoding (its exact text is platform-supplied). -/
def invalidCharacterErrorMsg : String := "InvalidCharacterError"

/-- `REQUEST_TIMEOUT` of `webauthn-api.ts` (milliseconds). -/
def REQUEST_TIMEOUT : Nat := 60000

/-! ### The four begin / finish step functions -/

/-- `data.data` of a successful begin-registration envelope. -/
structure RegBeginData (α β γ : Type) where
  publicKey : CreationOptionsWire α β γ
  sessionId : String
deriving DecidableEq

/-- Return value of `beginRegistration`. -/
structure RegistrationBeginResponse (α β γ : Type) where
  publicKey : CreationOptionsDec α β γ
  sessionId : String
deriving DecidableEq

/-- `data.data` of a successful begin-login envelope. -/
structure LoginBeginData (α γ : Type) where
  publicKey : RequestOptionsWire α γ
  sessionId : String
deriving DecidableEq

/-- Return value of `beginLogin`. -/
structure LoginBeginResponse (α γ : Type) where
  publicKey : RequestOptionsDec α γ
  sessionId : String
deriving DecidableEq

/-- `data.data || {}` of a finish call: optional token and opaque user. -/
structure FinishData where
  token : Option String
  user : Option String
deriving DecidableEq

/-- `beginRegistration` of `webauthn-api.ts`, as a function of the outcome of
its single `fetch`. -/
def beginRegistration {α β γ : Type} (outcome : FetchOutcome (RegBeginData α β γ)) :
    Except Thrown (RegistrationBeginResponse α β γ) :=
  match outcome with
  | .reject t => .error t
  | .response ok body =>
    if ok = false then
      .error (.error (httpErrorMsg body "登録開始に失敗しました"))
    else
      match body with
      | none => .error (.error jsonParseErrorMsg)
      | some data =>
        match data.success, data.data with
        | true, some d =>
          match decodeCreationOptions d.publicKey with
          | none => .error (.error invalidCharacterErrorMsg)
          | some pk => .ok ⟨pk, d.sessionId⟩
        | _, _ => .error (.error (jsOr data.error "登録開始に失敗しました"))

/-- `beginLogin` of `webauthn-api.ts`, as a function of its fetch outcome. -/
def beginLogin {α γ : Type} (outcome : FetchOutcome (LoginBeginData α γ)) :
    Except Thrown (LoginBeginResponse α γ) :=
  match outcome with
  | .reject t => .error t
  | .response ok body =>
    if ok = false then
      .error (.error (httpErrorMsg body "認証開始に失敗しました"))
    else
      match body with
      | none => .error (.error jsonParseErrorMsg)
      | some data =>
        match data.success, data.data with
        | true, some d =>
          match decodeRequestOptions d.publicKey with
          | none => .error (.error invalidCharacterErrorMsg)
          | some pk => .ok ⟨pk, d.sessionId⟩
        | _, _ => .error (.error (jsOr data.error "認証開始に失敗しました"))

/-! ### Platform credentials and finish request bodies -/

/-- A `PublicKeyCredential` with an `AuthenticatorAttestationResponse`. -/
structure AttestationCredential where
  id : String
  rawId : List Nat
  type : String
  attestationObject : List Nat
  clientDataJSON : List Nat
deriving DecidableEq

/-- A `PublicKeyCredential` with an `AuthenticatorAssertionResponse`;
`userHandle` is `none` when the platform supplied `null`. -/
structure AssertionCredential where
  id : String
  rawId : List Nat
  type : String
  authenticatorData : List Nat
  clientDataJSON : List Nat
  signature : List Nat
  userHandle : Option (List Nat)
deriving DecidableEq

/-- `response` part of `RegistrationFinishRequest`. -/
structure RegistrationFinishResponseBody where
  attestationObject : String
  clientDataJSON : String
deriving DecidableEq

/-- `credential` part of `RegistrationFinishRequest`. -/
structure RegistrationFinishCredential where
  id : String
  rawId : String
  type : String
  response : RegistrationFinishResponseBody
deriving DecidableEq

/-- `RegistrationFinishRequest` of `webauthn-api.ts`. -/
structure RegistrationFinishRequest where
  sessionId : String
  credential : RegistrationFinishCredential
deriving DecidableEq

/-- `response` part of `LoginFinishRequest`; `userHandle` is `none` exactly
when the `requestData` property is `undefined`. -/
structure LoginFinishResponseBody where
  authenticatorData : String
  clientDataJSON : String
  signature : String
  userHandle : Option String
deriving DecidableEq

/-- `credential` part of `LoginFinishRequest`. -/
structure LoginFinishCredential where
  id : String
  rawId : String
  type : String
  response : LoginFinishResponseBody
deriving DecidableEq

/-- `LoginFinishRequest` of `webauthn-api.ts`. -/
structure LoginFinishRequest where
  sessionId : String
  credential : LoginFinishCredential
deriving DecidableEq

/-- The `requestData` object built by `finishRegistration`. -/
def buildRegistrationFinishRequest (sessionId : String)
    (credential : AttestationCredential) : RegistrationFinishRequest :=
  ⟨sessionId,
    ⟨credential.id, bufferToBase64URL credential.rawId, credential.type,
      ⟨bufferToBase64URL credential.attestationObject,
       bufferToBase64URL credential.clientDataJSON⟩⟩⟩

/-- The `requestData` object built by `finishLogin`; the `userHandle`
property is set by the truthiness test `response.userHandle ? encode : undefined`,
so a present buffer is encoded even when it is empty. -/
def buildLoginFinishRequest (sessionId : String)
    (credential : AssertionCredential) : LoginFinishRequest :=
  ⟨sessionId,
    ⟨credential.id, bufferToBase64URL credential.rawId, credential.type,
      ⟨bufferToBase64URL credential.authenticatorData,
       bufferToBase64URL credential.clientDataJSON,
       bufferToBase64URL credential.signature,
       match credential.userHandle with
       | none => none
       | some buf => some (bufferToBase64URL buf)⟩⟩⟩

/-- `JSON.stringify` of the login `response` object as a key / value list:
a property holding `undefined` is omitted from the serialized JSON. -/
def serializeLoginFinishResponse (r : LoginFinishResponseBody) : List (String × String) :=
  [("authenticatorData", r.authenticatorData),
   ("clientDataJSON", r.clientDataJSON),
   ("signature", r.signature)] ++
    (match r.userHandle with
     | none => []
     | some u => [("userHandle", u)])

/-- `finishRegistration` of `webauthn-api.ts`. -/
def finishRegistration (sessionId : String) (credential : AttestationCredential)
    (outcome : FetchOutcome FinishData) : Except Thrown FinishData :=
  let _requestData := buildRegistrationFinishRequest sessionId credential
  match outcome with
  | .reject t => .error t
  | .response ok body =>
    if ok = false then
      .error (.error (httpErrorMsg body "登録完了に失敗しました"))
    else
      match body with
      | none => .error (.error jsonParseErrorMsg)
      | some data =>
        if data.success = false then
          .error (.error (jsOr data.error "登録完了に失敗しました"))
        else
          .ok (data.data.getD ⟨none, none⟩)

/-- `finishLogin` of `webauthn-api.ts`. -/
def finishLogin (sessionId : String) (credential : AssertionCredential)
    (outcome : FetchOutcome FinishData) : Except Thrown FinishData :=
  let _requestData := buildLoginFinishRequest sessionId credential
  match outcome with
  | .reject t => .error t
  | .response ok body =>
    if ok = false then
      .error (.error (httpErrorMsg body "認証完了に失敗しました"))
    else
      match body with
      | none => .error (.error jsonParseErrorMsg)
      | some data =>
        if data.success = false then
          .error (.error (jsOr data.error "認証完了に失敗しました"))
        else
          .ok (data.data.getD ⟨none, none⟩)

/-! ### Platform capability, client-side storage, and the two ceremonies -/

/-- Host-platform facts probed by `isWebAuthnSupported`. -/
structure Platform where
  hasWindow : Bool
  pkcDefined : Bool
  pkcIsFunction : Bool
deriving DecidableEq

/-- `isWebAuthnSupported` of `webauthn.ts`. -/
def isWebAuthnSupported (p : Platform) : Bool :=
  p.hasWindow && p.pkcDefined && p.pkcIsFunction

/-- The `localStorage` entry `webauthn_last_email`. -/
structure Store where
  lastEmail : Option String
deriving DecidableEq

/-- `saveLastEmail` of `webauthn.ts`: no-op without a window; a failing
`setItem` is caught and logged, leaving the store unchanged. -/
def saveLastEmail (hasWindow storageOk : Bool) (email : String) (store : Store) : Store :=
  if hasWindow = false then store
  else if storageOk then ⟨some email⟩ else store

/-- The `{success, token?, user?, error?}` object a ceremony returns. -/
structure CeremonyResult where
  success : Bool
  token : Option String
  user : Option String
  error : Option String
deriving DecidableEq

/-- Which collaborator calls a ceremony run performed. -/
structure Trace where
  beginCalled : Bool
  platformCalled : Bool
  finishCalled : Bool
deriving DecidableEq

/-- `error instanceof Error ? error.message : fallback` in a ceremony catch. -/
def caughtMessage (fallback : String) (t : Thrown) : String :=
  match t with
  | .error m => m
  | .other => fallback

/-- Collaborator outcomes of one registration-ceremony run. -/
structure RegEnv (α β γ : Type) where
  platform : Platform
  beginOutcome : FetchOutcome (RegBeginData α β γ)
  createOutcome : Except Thrown (Option AttestationCredential)
  finishOutcome : FetchOutcome FinishData
  storageOk : Bool

/-- Collaborator outcomes of one authentication-ceremony run. -/
structure AuthEnv (α γ : Type) where
  platform : Platform
  beginOutcome : FetchOutcome (LoginBeginData α γ)
  getOutcome : Except Thrown (Option AssertionCredential)
  finishOutcome : FetchOutcome FinishData
  storageOk : Bool

/-- `registerWebAuthnCredential` of `webauthn.ts`: capability check, begin,
platform create, finish, save last email; every throw of an inner step is
caught at this boundary and converted to `{success:false, error}`. -/
def registerWebAuthnCredential {α β γ : Type} (env : RegEnv α β γ)
    (email _username : String) (store : Store) : CeremonyResult × Trace × Store :=
  if isWebAuthnSupported env.platform = false then
    (⟨false, none, none, some "WebAuthnはこのブラウザではサポートされていません"⟩,
      ⟨false, false, false⟩, store)
  else
    match beginRegistration env.beginOutcome with
    | .error t =>
      (⟨false, none, none, some (caughtMessage "登録中にエラーが発生しました" t)⟩,
        ⟨true, false, false⟩, store)
    | .ok beginResponse =>
      match env.createOutcome with
      | .error t =>
        (⟨false, none, none, some (caughtMessage "登録中にエラーが発生しました" t)⟩,
          ⟨true, true, false⟩, store)
      | .ok none =>
        (⟨false, none, none, some "認証情報の生成に失敗しました"⟩,
          ⟨true, true, false⟩, store)
      | .ok (some credential) =>
        match finishRegistration beginResponse.sessionId credential env.finishOutcome with
        | .error t =>
          (⟨false, none, none, some (caughtMessage "登録中にエラーが発生しました" t)⟩,
            ⟨true, true, true⟩, store)
        | .ok result =>
          (⟨true, result.token, result.user, none⟩, ⟨true, true, true⟩,
            saveLastEmail env.platform.hasWindow env.storageOk email store)

/-- `authenticateWebAuthn` of `webauthn.ts`: same composition with
platform-get, the login endpoints, and the authentication messages. -/
def authenticateWebAuthn {α γ : Type} (env : AuthEnv α γ)
    (email : String) (store : Store) : CeremonyResult × Trace × Store :=
  if isWebAuthnSupported env.platform = false then
    (⟨false, none, none, some "WebAuthnはこのブラウザではサポートされていません"⟩,
      ⟨false, false, false⟩, store)
  else
    match beginLogin env.beginOutcome with
    | .error t =>
      (⟨false, none, none, some (caughtMessage "認証中にエラーが発生しました" t)⟩,
        ⟨true, false, false⟩, store)
    | .ok beginResponse =>
      match env.getOutcome with
      | .error t =>
        (⟨false, none, none, some (caughtMessage "認証中にエラーが発生しました" t)⟩,
          ⟨true, true, false⟩, store)
      | .ok none =>
        (⟨false, none, none, some "認証に失敗しました"⟩,
          ⟨true, true, false⟩, store)
      | .ok (some credential) =>
        match finishLogin beginResponse.sessionId credential env.finishOutcome with
        | .error t =>
          (⟨false, none, none, some (caughtMessage "認証中にエラーが発生しました" t)⟩,
            ⟨true, true, true⟩, store)
        | .ok result =>
          (⟨true, result.token, result.user, none⟩, ⟨true, true, true⟩,
            saveLastEmail env.platform.hasWindow env.storageOk email store)

/-! ### Claim theorems about the ceremonies -/

/-- C3: when the begin step fails — non-2xx HTTP status (taking precedence
even over `success:true`), or 2xx with a `success:false` envelope — the
ceremony returns `{success:false, error: server error or fallback}` and the
platform credential call is never attempted. -/
theorem c3_begin_failure_no_platform_call :
    (∀ {α β γ : Type} (p : Platform) (body : Option (ApiResponse (RegBeginData α β γ)))
       (co : Except Thrown (Option AttestationCredential)) (fo : FetchOutcome FinishData)
       (sk : Bool) (email username : String) (store : Store),
       isWebAuthnSupported p = true →
       registerWebAuthnCredential ⟨p, .response false body, co, fo, sk⟩ email username store =
         (⟨false, none, none, some (httpErrorMsg body "登録開始に失敗しました")⟩,
           ⟨true, false, false⟩, store)) ∧
    (∀ {α β γ : Type} (p : Platform) (dd : Option (RegBeginData α β γ))
       (err msg : Option String)
       (co : Except Thrown (Option AttestationCredential)) (fo : FetchOutcome FinishData)
       (sk : Bool) (email username : String) (store : Store),
       isWebAuthnSupported p = true →
       registerWebAuthnCredential ⟨p, .response true (some ⟨false, dd, err, msg⟩), co, fo, sk⟩
           email username store =
         (⟨false, none, none, some (jsOr err "登録開始に失敗しました")⟩,
           ⟨true, false, false⟩, store)) ∧
    (∀ {α γ : Type} (p : Platform) (body : Option (ApiResponse (LoginBeginData α γ)))
       (go : Except Thrown (Option AssertionCredential)) (fo : FetchOutcome FinishData)
       (sk : Bool) (email : String) (store : Store),
       isWebAuthnSupported p = true →
       authenticateWebAuthn ⟨p, .response false body, go, fo, sk⟩ email store =
         (⟨false, none, none, some (httpErrorMsg body "認証開始に失敗しました")⟩,
           ⟨true, false, false⟩, store)) ∧
    (∀ {α γ : Type} (p : Platform) (dd : Option (LoginBeginData α γ))
       (err msg : Option String)
       (go : Except Thrown (Option AssertionCredential)) (fo : FetchOutcome FinishData)
       (sk : Bool) (email : String) (store : Store),
       isWebAuthnSupported p = true →
       authenticateWebAuthn ⟨p, .response true (some ⟨false, dd, err, msg⟩), go, fo, sk⟩
           email store =
         (⟨false, none, none, some (jsOr err "認証開始に失敗しました")⟩,
           ⟨true, false, false⟩, store)) := by
  refine ⟨?_, ?_, ?_, ?_⟩
  · intro α β γ p body co fo sk email username store hsup
    simp [registerWebAuthnCredential, beginRegistration, hsup, caughtMessage]
  · intro α β γ p dd err msg co fo sk email username store hsup
    cases dd <;>
      simp [registerWebAuthnCredential, beginRegistration, hsup, caughtMessage]
  · intro α γ p body go fo sk email store hsup
    simp [authenticateWebAuthn, beginLogin, hsup, caughtMessage]
  · intro α γ p dd err msg go fo sk email store hsup
    cases dd <;>
      simp [authenticateWebAuthn, beginLogin, hsup, caughtMessage]

/-- Witness for C3 on a supported platform with a 500-status begin response
(first conjunct) and a `success:false` begin envelope (second conjunct). -/
theorem c3_begin_failure_no_platform_call_witness :
    registerWebAuthnCredential
        (⟨⟨true, true, true⟩, .response false none, .ok none, .response true none, true⟩ :
          RegEnv Unit Unit Unit) "a@b" "alice" ⟨none⟩ =
      (⟨false, none, none, some (httpErrorMsg (δ := RegBeginData Unit Unit Unit) none
          "登録開始に失敗しました")⟩, ⟨true, false, false⟩, ⟨none⟩) ∧
    authenticateWebAuthn
        (⟨⟨true, true, true⟩, .response true (some ⟨false, none, none, none⟩), .ok none,
          .response true none, true⟩ : AuthEnv Unit Unit) "a@b" ⟨none⟩ =
      (⟨false, none, none, some (jsOr none "認証開始に失敗しました")⟩,
        ⟨true, false, false⟩, ⟨none⟩) :=
  ⟨c3_begin_failure_no_platform_call.1 ⟨true, true, true⟩ none (.ok none)
      (.response true none) true "a@b" "alice" ⟨none⟩ (by decide),
   c3_begin_failure_no_platform_call.2.2.2 ⟨true, true, true⟩ none none none (.ok none)
      (.response true none) true "a@b" ⟨none⟩ (by decide)⟩

/-- C6: without the platform credential API, both ceremonies return the
capability-unsupported failure immediately and no collaborator is called. -/
theorem c6_unsupported_short_circuit :
    (∀ {α β γ : Type} (env : RegEnv α β γ) (email username : String) (store : Store),
       isWebAuthnSupported env.platform = false →
       registerWebAuthnCredential env email username store =
         (⟨false, none, none, some "WebAuthnはこのブラウザではサポートされていません"⟩,
           ⟨false, false, false⟩, store)) ∧
    (∀ {α γ : Type} (env : AuthEnv α γ) (email : String) (store : Store),
       isWebAuthnSupported env.platform = false →
       authenticateWebAuthn env email store =
         (⟨false, none, none, some "WebAuthnはこのブラウザではサポートされていません"⟩,
           ⟨false, false, false⟩, store)) := by
  constructor
  · intro α β γ env email username store h
    simp [registerWebAuthnCredential, h]
  · intro α γ env email store h
    simp [authenticateWebAuthn, h]

/-- Witness for C6 on a platform without `window.PublicKeyCredential`. -/
theorem c6_unsupported_short_circuit_witness :
    registerWebAuthnCredential
        (⟨⟨true, false, false⟩, .response true none, .ok none, .response true none, true⟩ :
          RegEnv Unit Unit Unit) "a@b" "alice" ⟨none⟩ =
      (⟨false, none, none, some "WebAuthnはこのブラウザではサポートされていません"⟩,
        ⟨false, false, false⟩, ⟨none⟩) ∧
    authenticateWebAuthn
        (⟨⟨true, false, false⟩, .response true none, .ok none, .response true none, true⟩ :
          AuthEnv Unit Unit) "a@b" ⟨none⟩ =
      (⟨false, none, none, some "WebAuthnはこのブラウザではサポートされていません"⟩,
        ⟨false, false, false⟩, ⟨none⟩) :=
  ⟨c6_unsupported_short_circuit.1 _ "a@b" "alice" ⟨none⟩ (by decide),
   c6_unsupported_short_circuit.2 _ "a@b" ⟨none⟩ (by decide)⟩

/-- C5: a fully successful ceremony returns `{success:true, token, user}`
with token / user taken from the finish envelope (absent when omitted), and
overwrites the stored last email with the ceremony email. -/
theorem c5_success_path :
    (∀ {α β γ : Type} (p : Platform) (pk : CreationOptionsWire α β γ)
       (pkd : CreationOptionsDec α β γ) (sid : String) (err msg : Option String)
       (cred : AttestationCredential) (fd : Option FinishData) (ferr fmsg : Option String)
       (sk : Bool) (email username : String) (store : Store),
       isWebAuthnSupported p = true →
       decodeCreationOptions pk = some pkd →
       registerWebAuthnCredential
           ⟨p, .response true (some ⟨true, some ⟨pk, sid⟩, err, msg⟩), .ok (some cred),
             .response true (some ⟨true, fd, ferr, fmsg⟩), sk⟩ email username store =
         (⟨true, (fd.getD ⟨none, none⟩).token, (fd.getD ⟨none, none⟩).user, none⟩,
           ⟨true, true, true⟩, saveLastEmail p.hasWindow sk email store) ∧
       (sk = true → saveLastEmail p.hasWindow sk email store = ⟨some email⟩)) ∧
    (∀ {α γ : Type} (p : Platform) (pk : RequestOptionsWire α γ)
       (pkd : RequestOptionsDec α γ) (sid : String) (err msg : Option String)
       (cred : AssertionCredential) (fd : Option FinishData) (ferr fmsg : Option String)
       (sk : Bool) (email : String) (store : Store),
       isWebAuthnSupported p = true →
       decodeRequestOptions pk = some pkd →
       authenticateWebAuthn
           ⟨p, .response true (some ⟨true, some ⟨pk, sid⟩, err, msg⟩), .ok (some cred),
             .response true (some ⟨true, fd, ferr, fmsg⟩), sk⟩ email store =
         (⟨true, (fd.getD ⟨none, none⟩).token, (fd.getD ⟨none, none⟩).user, none⟩,
           ⟨true, true, true⟩, saveLastEmail p.hasWindow sk email store) ∧
       (sk = true → saveLastEmail p.hasWindow sk email store = ⟨some email⟩)) := by
  constructor
  · intro α β γ p pk pkd sid err msg cred fd ferr fmsg sk email username store hsup hdec
    have hw : p.hasWindow = true := by
      obtain ⟨w, d, f⟩ := p
      simp [isWebAuthnSupported, Bool.and_eq_true] at hsup
      simpa using hsup.1.1
    constructor
    · simp [registerWebAuthnCredential, beginRegistration, finishRegistration, hsup, hdec]
    · intro hsk
      simp [saveLastEmail, hw, hsk]
  · intro α γ p pk pkd sid err msg cred fd ferr fmsg sk email store hsup hdec
    have hw : p.hasWindow = true := by
      obtain ⟨w, d, f⟩ := p
      simp [isWebAuthnSupported, Bool.and_eq_true] at hsup
      simpa using hsup.1.1
    constructor
    · simp [authenticateWebAuthn, beginLogin, finishLogin, hsup, hdec]
    · intro hsk
      simp [saveLastEmail, hw, hsk]

/-- Witness for C5: a full success with token and user present, and one with
the finish `data` omitted. -/
theorem c5_success_path_witness :
    (registerWebAuthnCredential
        (⟨⟨true, true, true⟩,
          .response true (some ⟨true, some ⟨⟨"QQ", ⟨"QQ", ()⟩, none, ()⟩, "s1"⟩, none, none⟩),
          .ok (some ⟨"cid", [1], "public-key", [2], [3]⟩),
          .response true (some ⟨true, some ⟨some "tok", some "usr"⟩, none, none⟩), true⟩ :
          RegEnv Unit Unit Unit) "a@b" "alice" ⟨none⟩ =
      (⟨true, some "tok", some "usr", none⟩, ⟨true, true, true⟩,
        saveLastEmail true true "a@b" ⟨none⟩) ∧
     (true = true → saveLastEmail true true "a@b" ⟨none⟩ = ⟨some "a@b"⟩)) ∧
    (authenticateWebAuthn
        (⟨⟨true, true, true⟩,
          .response true (some ⟨true, some ⟨⟨"QQ", none, ()⟩, "s2"⟩, none, none⟩),
          .ok (some ⟨"cid", [1], "public-key", [2], [3], [4], none⟩),
          .response true (some ⟨true, none, none, none⟩), true⟩ : AuthEnv Unit Unit)
        "a@b" ⟨none⟩ =
      (⟨true, none, none, none⟩, ⟨true, true, true⟩,
        saveLastEmail true true "a@b" ⟨none⟩) ∧
     (true = true → saveLastEmail true true "a@b" ⟨none⟩ = ⟨some "a@b"⟩)) :=
  ⟨c5_success_path.1 ⟨true, true, true⟩ ⟨"QQ", ⟨"QQ", ()⟩, none, ()⟩
      ⟨[65], ⟨[65], ()⟩, none, ()⟩ "s1" none none ⟨"cid", [1], "public-key", [2], [3]⟩
      (some ⟨some "tok", some "usr"⟩) none none true "a@b" "alice" ⟨none⟩
      (by decide) (by decide),
   c5_success_path.2 ⟨true, true, true⟩ ⟨"QQ", none, ()⟩ ⟨[65], none, ()⟩ "s2" none none
      ⟨"cid", [1], "public-key", [2], [3], [4], none⟩ none none none true "a@b" ⟨none⟩
      (by decide) (by decide)⟩

/-- C7: for every collaborator outcome the ceremonies return a value (the
embedding of the catch at the composition boundary, so nothing above it
throws): success carries no error, failure always carries an error string;
and the ceremony result never depends on whether the storage write succeeds,
so a storage failure cannot fail a successful ceremony. -/
theorem c7_failure_normalization_total :
    (∀ {α β γ : Type} (env : RegEnv α β γ) (email username : String) (store : Store),
       (((registerWebAuthnCredential env email username store).1.success = true ∧
          (registerWebAuthnCredential env email username store).1.error = none) ∨
        ((registerWebAuthnCredential env email username store).1.success = false ∧
          ∃ s, (registerWebAuthnCredential env email username store).1.error = some s)) ∧
       ∀ b : Bool,
         (registerWebAuthnCredential
             ⟨env.platform, env.beginOutcome, env.createOutcome, env.finishOutcome, b⟩
             email username store).1 =
           (registerWebAuthnCredential env email username store).1) ∧
    (∀ {α γ : Type} (env : AuthEnv α γ) (email : String) (store : Store),
       (((authenticateWebAuthn env email store).1.success = true ∧
          (authenticateWebAuthn env email store).1.error = none) ∨
        ((authenticateWebAuthn env email store).1.success = false ∧
          ∃ s, (authenticateWebAuthn env email store).1.error = some s)) ∧
       ∀ b : Bool,
         (authenticateWebAuthn
             ⟨env.platform, env.beginOutcome, env.getOutcome, env.finishOutcome, b⟩
             email store).1 =
           (authenticateWebAuthn env email store).1) := by
  constructor
  · intro α β γ env email username store
    obtain ⟨p, bo, co, fo, sk⟩ := env
    constructor
    · by_cases hsup : isWebAuthnSupported p = false
      · simp [registerWebAuthnCredential, hsup]
      · rcases hbeg : beginRegistration bo with t | br
        · simp [registerWebAuthnCredential, hsup, hbeg]
        · rcases co with t | mc
          · simp [registerWebAuthnCredential, hsup, hbeg]
          · rcases mc with _ | cred
            · simp [registerWebAuthnCredential, hsup, hbeg]
            · rcases hfin : finishRegistration br.sessionId cred fo with t | res <;>
                simp [registerWebAuthnCredential, hsup, hbeg, hfin]
    · intro b
      by_cases hsup : isWebAuthnSupported p = false
      · simp [registerWebAuthnCredential, hsup]
      · rcases hbeg : beginRegistration bo with t | br
        · simp [registerWebAuthnCredential, hsup, hbeg]
        · rcases co with t | mc
          · simp [registerWebAuthnCredential, hsup, hbeg]
          · rcases mc with _ | cred
            · simp [registerWebAuthnCredential, hsup, hbeg]
            · rcases hfin : finishRegistration br.sessionId cred fo with t | res <;>
                simp [registerWebAuthnCredential, hsup, hbeg, hfin]
  · intro α γ env email store
    obtain ⟨p, bo, go, fo, sk⟩ := env
    constructor
    · by_cases hsup : isWebAuthnSupported p = false
      · simp [authenticateWebAuthn, hsup]
      · rcases hbeg : beginLogin bo with t | br
        · simp [authenticateWebAuthn, hsup, hbeg]
        · rcases go with t | mc
          · simp [authenticateWebAuthn, hsup, hbeg]
          · rcases mc with _ | cred
            · simp [authenticateWebAuthn, hsup, hbeg]
            · rcases hfin : finishLogin br.sessionId cred fo with t | res <;>
                simp [authenticateWebAuthn, hsup, hbeg, hfin]
    · intro b
      by_cases hsup : isWebAuthnSupported p = false
      · simp [authenticateWebAuthn, hsup]
      · rcases hbeg : beginLogin bo with t | br
        · simp [authenticateWebAuthn, hsup, hbeg]
        · rcases go with t | mc
          · simp [authenticateWebAuthn, hsup, hbeg]
          · rcases mc with _ | cred
            · simp [authenticateWebAuthn, hsup, hbeg]
            · rcases hfin : finishLogin br.sessionId cred fo with t | res <;>
                simp [authenticateWebAuthn, hsup, hbeg, hfin]

/-- C8: when the platform supplied no user handle (`null`), the finish-login
request body omits the `userHandle` property entirely from the serialized
JSON — it is not sent as an empty string. -/
theorem c8_absent_userHandle_omitted
    (sid cid : String) (rawId : List Nat) (ty : String) (ad cdj sig : List Nat) :
    (buildLoginFinishRequest sid
        ⟨cid, rawId, ty, ad, cdj, sig, none⟩).credential.response.userHandle = none ∧
    "userHandle" ∉ (serializeLoginFinishResponse
        (buildLoginFinishRequest sid
          ⟨cid, rawId, ty, ad, cdj, sig, none⟩).credential.response).map Prod.fst := by
  constructor
  · rfl
  · simp [buildLoginFinishRequest, serializeLoginFinishResponse]

/-- C10: the truthiness edges. A present but zero-length user-handle buffer
is encoded as the empty string and serialized (only `null` triggers
omission); a `success:true` finish envelope without `data` yields `{}` (both
token and user absent); begin, by contrast, fails when `data` is absent. -/
theorem c10_truthiness_edges :
    (∀ (sid cid : String) (rawId : List Nat) (ty : String) (ad cdj sig : List Nat),
       (buildLoginFinishRequest sid
           ⟨cid, rawId, ty, ad, cdj, sig, some []⟩).credential.response.userHandle =
         some "" ∧
       ("userHandle", "") ∈ serializeLoginFinishResponse
         (buildLoginFinishRequest sid
           ⟨cid, rawId, ty, ad, cdj, sig, some []⟩).credential.response) ∧
    (∀ (sid : String) (cred : AssertionCredential) (err msg : Option String),
       finishLogin sid cred (.response true (some ⟨true, none, err, msg⟩)) =
         .ok ⟨none, none⟩) ∧
    (∀ {α β γ : Type} (err msg : Option String),
       beginRegistration (α := α) (β := β) (γ := γ)
           (.response true (some ⟨true, none, err, msg⟩)) =
         .error (.error (jsOr err "登録開始に失敗しました"))) := by
  refine ⟨?_, ?_, ?_⟩
  · intro sid cid rawId ty ad cdj sig
    constructor
    · rfl
    · simp [buildLoginFinishRequest, serializeLoginFinishResponse, bufferToBase64URL,
        encodeB64]
  · intro sid cred err msg
    rfl
  · intro α β γ err msg
    rfl

/-- Counterexample to C4: in the application-level `success:false` branch the
envelope's `message` field is never consulted — with `error` absent and
`message` present the thrown error is the generic fallback, not the message. -/
theorem c4_message_fallback_counterexample :
    beginRegistration (α := Unit) (β := Unit) (γ := Unit)
        (.response true (some ⟨false, none, none, some "サーバー側の詳細"⟩)) =
      .error (.error "登録開始に失敗しました") ∧
    ("登録開始に失敗しました" : String) ≠ "サーバー側の詳細" := by
  constructor
  · rfl
  · decide

/-- C4 (amended): for every begin / finish call, the HTTP-status failure
branch prefers the envelope's `error`, then `message`, then the generic
fallback, while the application-level `success:false` branch prefers `error`
and then the fallback, never consulting `message`. -/
theorem c4_error_message_preference :
    (∀ {α β γ : Type} (e : ApiResponse (RegBeginData α β γ)),
       beginRegistration (.response false (some e)) =
         .error (.error (jsOr e.error (jsOr e.message "登録開始に失敗しました")))) ∧
    (∀ {α β γ : Type} (dd : Option (RegBeginData α β γ)) (err msg : Option String),
       beginRegistration (.response true (some ⟨false, dd, err, msg⟩)) =
         .error (.error (jsOr err "登録開始に失敗しました"))) ∧
    (∀ {α γ : Type} (e : ApiResponse (LoginBeginData α γ)),
       beginLogin (.response false (some e)) =
         .error (.error (jsOr e.error (jsOr e.message "認証開始に失敗しました")))) ∧
    (∀ {α γ : Type} (dd : Option (LoginBeginData α γ)) (err msg : Option String),
       beginLogin (.response true (some ⟨false, dd, err, msg⟩)) =
         .error (.error (jsOr err "認証開始に失敗しました"))) ∧
    (∀ (sid : String) (cred : AttestationCredential) (e : ApiResponse FinishData),
       finishRegistration sid cred (.response false (some e)) =
         .error (.error (jsOr e.error (jsOr e.message "登録完了に失敗しました")))) ∧
    (∀ (sid : String) (cred : AttestationCredential) (dd : Option FinishData)
       (err msg : Option String),
       finishRegistration sid cred (.response true (some ⟨false, dd, err, msg⟩)) =
         .error (.error (jsOr err "登録完了に失敗しました"))) ∧
    (∀ (sid : String) (cred : AssertionCredential) (e : ApiResponse FinishData),
       finishLogin sid cred (.response false (some e)) =
         .error (.error (jsOr e.error (jsOr e.message "認証完了に失敗しました")))) ∧
    (∀ (sid : String) (cred : AssertionCredential) (dd : Option FinishData)
       (err msg : Option String),
       finishLogin sid cred (.response true (some ⟨false, dd, err, msg⟩)) =
         .error (.error (jsOr err "認証完了に失敗しました"))) := by
  refine ⟨?_, ?_, ?_, ?_, ?_, ?_, ?_, ?_⟩
  · intro α β γ e
    rfl
  · intro α β γ dd err msg
    cases dd <;> rfl
  · intro α γ e
    rfl
  · intro α γ dd err msg
    cases dd <;> rfl
  · intro sid cred e
    rfl
  · intro sid cred dd err msg
    rfl
  · intro sid cred e
    rfl
  · intro sid cred dd err msg
    rfl
